import Mathlib

/-!
Shallow embedding of the windowing / data-module core of the repository
(`src/dl/notebooks/time_vae.py`) together with a spec-modelled damped-pendulum
signal generator (the `Pendulum` class is imported from `ts_dl_utils` and its
source is not part of this repository).

A pandas dataframe used by this code is modelled as a Lean list of rows; the
row type is a type parameter.  Python slice semantics (`l[a:b]`, negative
indices counting from the end, out-of-range bounds clamped) are modelled by
`pyNormIdx` / `pySlice` below.  Python exceptions are modelled by the `PyErr`
error type and `Except`.
-/

namespace CPE

/-- Python errors raised by the embedded code. -/
inductive PyErr where
  | indexError : String → PyErr
  | valueError : String → PyErr
  | typeError : String → PyErr
  | attributeError : String → PyErr
deriving DecidableEq, Repr

/-- Normalisation of one slice bound, as CPython does for `l[a:b]` on a list
of length `n`: a negative bound counts from the end and is clamped below at 0,
a non-negative bound is clamped above at `n`. -/
def pyNormIdx (n : Nat) (i : Int) : Nat :=
  if i < 0 then (max 0 ((n : Int) + i)).toNat else min i.toNat n

/-- Python slice `l[a:b]` (step 1): elements from the normalised start bound
up to, excluding, the normalised stop bound; empty when stop ≤ start. -/
def pySlice {α : Type} (l : List α) (a b : Int) : List α :=
  let s := pyNormIdx l.length a
  let e := pyNormIdx l.length b
  (l.drop s).take (e - s)

/-- Python `range(a, b, step)` for a non-zero step. -/
def pyRange (a b step : Int) : List Int :=
  let count : Nat :=
    if 0 < step then (((b - a) + step - 1).fdiv step).toNat
    else (((a - b) + (-step) - 1).fdiv (-step)).toNat
  (List.range count).map (fun i => a + step * i)

/-- `TimeVAEDataset` (time_vae.py, lines 87-157).  The constructor stores the
dataframe and the window size; `dataframe_rows` and `length` are the derived
attributes `self.dataframe_rows = len(self.dataframe)` and
`self.length = self.dataframe_rows - self.window_size + 1`. -/
structure TimeVAEDataset (α : Type) where
  dataframe : List α
  window_size : Nat
deriving Repr

namespace TimeVAEDataset

variable {α : Type}

/-- `self.dataframe_rows = len(self.dataframe)`. -/
def dataframe_rows (ds : TimeVAEDataset α) : Nat := ds.dataframe.length

/-- `self.length = self.dataframe_rows - self.window_size + 1` (Python ints:
no clamping at zero, so the value may be negative). -/
def length (ds : TimeVAEDataset α) : Int :=
  (ds.dataframe_rows : Int) - ds.window_size + 1

/-- `moving_slicing(self, idx): return self.dataframe[idx : self.window_size + idx].values`. -/
def moving_slicing (ds : TimeVAEDataset α) (idx : Int) : List α :=
  pySlice ds.dataframe idx ((ds.window_size : Int) + idx)

/-- `__getitem__` on an integer index (time_vae.py, lines 151-154):
`if idx >= self.length: raise IndexError("End of dataset")`, otherwise
`return self.moving_slicing(idx)`. -/
def getItem (ds : TimeVAEDataset α) (idx : Int) : Except PyErr (List α) :=
  if ds.length ≤ idx then .error (.indexError "End of dataset")
  else .ok (ds.moving_slicing idx)

/-- A Python `slice(start, stop, step)` object with integer endpoints, as the
claim restricts attention to (`step = none` models an omitted step). -/
structure Slice where
  start : Int
  stop : Int
  step : Option Int
deriving Repr

/-- `__getitem__` on a slice (time_vae.py, lines 146-150):
`if (idx.start < 0) or (idx.stop >= self.length): raise IndexError(...)`;
`step = idx.step if idx.step is not None else 1`;
`return [self.moving_slicing(i) for i in range(idx.start, idx.stop, step)]`
(a zero step makes `range` raise `ValueError`). -/
def getItemSlice (ds : TimeVAEDataset α) (s : Slice) : Except PyErr (List (List α)) :=
  if s.start < 0 ∨ ds.length ≤ s.stop then
    .error (.indexError "Slice out of range")
  else
    let step := s.step.getD 1
    if step = 0 then .error (.valueError "range arg 3 must not be zero")
    else .ok ((pyRange s.start s.stop step).map ds.moving_slicing)

/-- `__len__(self): return self.length`. -/
def lenFn (ds : TimeVAEDataset α) : Int := ds.length

/-- `__getitem__` viewed as a state-passing operation: the Python method body
only reads `self.length`, `self.window_size` and `self.dataframe` and performs
no assignment, so the post-call object is the unchanged receiver. -/
def getItemSt (ds : TimeVAEDataset α) (idx : Int) :
    Except PyErr (List α) × TimeVAEDataset α :=
  (ds.getItem idx, ds)

end TimeVAEDataset

/-- The kind of a pandas index, as far as `_validate_dataframe` inspects it
(`isinstance(self.dataframe.index, pd.core.indexes.datetimes.DatetimeIndex)`). -/
inductive PdIndexKind where
  | datetimeIndex
  | rangeIndex
  | otherIndex
deriving DecidableEq, Repr

/-- The parts of a pandas dataframe that `_validate_dataframe` reads: the kind
of its index, the index values (timestamps as integers), and per-cell
nullability of the data (`none` models a null/NaN cell). -/
structure PdFrame (α : Type) where
  indexKind : PdIndexKind
  index : List Int
  cells : List (Option α)
deriving Repr

/-- `self.dataframe.isnull().values.any()`. -/
def PdFrame.hasNull {α : Type} (df : PdFrame α) : Bool :=
  df.cells.any fun c => c.isNone

/-- `self.dataframe.index.equals(self.dataframe.index.sort_values())`. -/
def PdFrame.indexSorted {α : Type} (df : PdFrame α) : Bool :=
  df.index.Sorted (· ≤ ·)

/-- `TimeVAEDataset._validate_dataframe` (time_vae.py, lines 117-143): raise
`TypeError` when the index is not a `DatetimeIndex`; a null value and an
unsorted index each only emit a `logger.warning` and the method returns
normally.  The returned list collects the warnings, in emission order; the
dataframe argument is only read. -/
def validateDataframe {α : Type} (df : PdFrame α) : Except PyErr (List String) :=
  if df.indexKind ≠ .datetimeIndex then
    .error (.typeError "Type of the dataframe index is not DatetimeIndex")
  else
    let w₁ := if df.hasNull then ["Dataframe has null"] else []
    let w₂ := if ¬ df.indexSorted then ["Dataframe index is not sorted"] else []
    .ok (w₁ ++ w₂)

/-- Python `int(x)` on a number modelled as a rational: truncation toward
zero. -/
def pyInt (x : ℚ) : Int :=
  if 0 ≤ x then ⌊x⌋ else ⌈x⌉

/-- `TimeVAEDataModule` (time_vae.py, lines 160-250): constructor arguments.
`split_train_val` delegates to the external framework's random splitter and is
out of the claims' scope. -/
structure TimeVAEDataModule (α : Type) where
  window_size : Nat
  dataframe : List α
  test_fraction : ℚ := 3 / 10
  val_fraction : ℚ := 1 / 10
  batch_size : Nat := 32
  num_workers : Nat := 0

namespace TimeVAEDataModule

variable {α : Type}

/-- `df_length = len(self.dataframe)`. -/
def df_length (dm : TimeVAEDataModule α) : Nat := dm.dataframe.length

/-- `df_test_length = int(self.df_length * self.test_fraction)`. -/
def df_test_length (dm : TimeVAEDataModule α) : Int :=
  pyInt ((dm.df_length : ℚ) * dm.test_fraction)

/-- `df_train_val_length = self.df_length - self.df_test_length`. -/
def df_train_val_length (dm : TimeVAEDataModule α) : Int :=
  (dm.df_length : Int) - dm.df_test_length

/-- `train_val_dataframe = self.dataframe.iloc[: self.df_train_val_length]`
(pandas `iloc` slicing follows Python slice semantics). -/
def train_val_dataframe (dm : TimeVAEDataModule α) : List α :=
  pySlice dm.dataframe 0 dm.df_train_val_length

/-- `test_dataframe = self.dataframe.iloc[self.df_train_val_length :]`. -/
def test_dataframe (dm : TimeVAEDataModule α) : List α :=
  pySlice dm.dataframe dm.df_train_val_length dm.df_length

/-- `train_val_dataset = TimeVAEDataset(dataframe=self.train_val_dataframe,
window_size=self.window_size)`. -/
def train_val_dataset (dm : TimeVAEDataModule α) : TimeVAEDataset α :=
  ⟨dm.train_val_dataframe, dm.window_size⟩

/-- `test_dataset = TimeVAEDataset(dataframe=self.test_dataframe,
window_size=self.window_size)`. -/
def test_dataset (dm : TimeVAEDataModule α) : TimeVAEDataset α :=
  ⟨dm.test_dataframe, dm.window_size⟩

end TimeVAEDataModule

/-- One step of `df.rolling(window_size)` (time_vae.py, line 69): the window
ending at row `j` (0-based), covering rows `[max 0 (j+1-w), j]` of the value
column; the first `w - 1` of these windows are shorter than `w`. -/
def rollingWindow {α : Type} (vals : List α) (w : Nat) (j : Nat) : List α :=
  let start := j + 1 - w
  (vals.drop start).take (j + 1 - start)

/-- `time_delay_embed` (time_vae.py, lines 59-81).  The input dataframe has a
time column `t` plus one value column, modelled as a list of `(t, value)`
rows.  Each rolling window is stripped of `t` and transposed into a single
row of `w` columns; `pd.concat(dfs_embedded[window_size - 1 :])` drops the
leading short windows. -/
def time_delay_embed {α : Type} (df : List (ℝ × α)) (window_size : Nat) :
    List (List α) :=
  let vals := df.map Prod.snd
  let dfs_embedded := (List.range df.length).map (rollingWindow vals window_size)
  dfs_embedded.drop (window_size - 1)

/-- `VAEDecoderParams` (time_vae.py, lines 332-338). -/
structure VAEDecoderParams where
  hidden_layer_sizes : List Nat
  latent_size : Nat
  data_size : Nat
deriving Repr

/-- `VAEDecoder` after `__init__` (time_vae.py, lines 344-362): the
constructor assigns exactly two instance attributes, `self.params` and
`self.decode` (the other names `forward` mentions are never assigned).  The
network `self.decode` is a composition of externally-initialised linear
blocks, modelled as an abstract function on real vectors. -/
structure VAEDecoder where
  params : VAEDecoderParams
  decode : List ℝ → List ℝ

namespace VAEDecoder

/-- The set of instance attributes `VAEDecoder.__init__` assigns: it executes
`self.params = params` and `self.decode = nn.Sequential(...)` and nothing
else. -/
def attrNames : List String := ["params", "decode"]

/-- Python attribute lookup on a `VAEDecoder` instance: succeeds exactly on
the names the constructor assigned, raises `AttributeError` otherwise. -/
def lookupAttr (name : String) : Except PyErr Unit :=
  if name ∈ attrNames then .ok () else .error (.attributeError name)

/-- `VAEDecoder.forward` (time_vae.py, lines 364-366):
`output = self.decoder(z)` then
`return output.view(-1, self.seq_len, self.feat_dim)`.  Each of the three
attribute references is resolved before its value is used; the first one,
`self.decoder`, already fails. -/
def forward (_self : VAEDecoder) (z : List ℝ) : Except PyErr (List ℝ) := do
  let _ ← lookupAttr "decoder"
  let output := _self.decode z
  let _ ← lookupAttr "seq_len"
  let _ ← lookupAttr "feat_dim"
  pure output

end VAEDecoder

/-- Error raised by the signal generator on invalid parameters. -/
inductive PendulumError where
  | invalidParameter
deriving DecidableEq, Repr

/-- Modelled from the spec: the surface gravity `g` used by the `Pendulum`
generator (the class is imported from `ts_dl_utils.datasets.pendulum`; its
source is not in this repository). -/
noncomputable def gGravity : ℝ := 981 / 100

/-- Modelled from the spec: the oscillation period,
`period = 2π√(length/g)`. -/
noncomputable def pendulumPeriod (length : ℝ) : ℝ :=
  2 * Real.pi * Real.sqrt (length / gGravity)

/-- Modelled from the spec: the sampling step, one `num_samples_per_period`-th
of a period, so that each period contributes that many samples. -/
noncomputable def pendulumDt (length : ℝ) (num_samples_per_period : ℤ) : ℝ :=
  pendulumPeriod length / num_samples_per_period

/-- Modelled from the spec: the damped-oscillator signal,
`theta(t) = initial_angle * cos(2π t / period) * exp(-beta * t)`. -/
noncomputable def pendulumTheta (initial_angle beta period t : ℝ) : ℝ :=
  initial_angle * Real.cos (2 * Real.pi * t / period) * Real.exp (-beta * t)

/-- Modelled from the spec: the table of
`num_periods * num_samples_per_period` samples of `(t, theta)`, sampled every
`dt` starting at `t = 0`. -/
noncomputable def pendulumTable (length : ℝ) (num_periods num_samples_per_period : ℤ)
    (initial_angle beta : ℝ) : List (ℝ × ℝ) :=
  (List.range (num_periods * num_samples_per_period).toNat).map
    fun i : ℕ => (pendulumDt length num_samples_per_period * (i : ℝ),
      pendulumTheta initial_angle beta (pendulumPeriod length)
        (pendulumDt length num_samples_per_period * (i : ℝ)))

/-- Modelled from the spec: the `Pendulum` generator.  Deterministic; the only
failure mode is invalid (non-positive) parameters, which yield an
`InvalidParameter` error. -/
noncomputable def pendulum (length : ℝ) (num_periods num_samples_per_period : ℤ)
    (initial_angle beta : ℝ) : Except PendulumError (List (ℝ × ℝ)) :=
  if length ≤ 0 ∨ num_periods ≤ 0 ∨ num_samples_per_period ≤ 0 ∨
      initial_angle ≤ 0 ∨ beta ≤ 0 then
    .error .invalidParameter
  else
    .ok (pendulumTable length num_periods num_samples_per_period initial_angle beta)

/-! Theorems -/

/-- C1 counterexample: over an empty table with `window_size = 2` the dataset
reports logical length `-1`, which is negative and differs from
`max(0, rows - window_size + 1) = 0`. -/
theorem C1_counterexample :
    TimeVAEDataset.lenFn (TimeVAEDataset.mk ([] : List ℤ) 2) = -1 ∧
    TimeVAEDataset.lenFn (TimeVAEDataset.mk ([] : List ℤ) 2) ≠
      max 0 ((0 : ℤ) - 2 + 1) := by
  constructor
  · rfl
  · decide

/-- C1 (amended): a `TimeVAEDataset` over a table with `rows` rows reports
logical length `rows - window_size + 1` with no clamping at zero; the length
is negative exactly when `rows + 1 < window_size`. -/
theorem C1_length_formula {α : Type} (df : List α) (w : Nat) :
    TimeVAEDataset.lenFn (TimeVAEDataset.mk df w) = (df.length : ℤ) - w + 1 ∧
    (TimeVAEDataset.lenFn (TimeVAEDataset.mk df w) < 0 ↔
      (df.length : ℤ) + 1 < w) := by
  refine ⟨rfl, ?_⟩
  simp only [TimeVAEDataset.lenFn, TimeVAEDataset.length, TimeVAEDataset.dataframe_rows]
  omega

/-- C2 counterexample: on a 5-row table with `window_size = 2` (logical length
4), `get(-1)` does not fail although `-1` is outside `[0, length())`: the
negative index reaches Python slicing and yields an empty window. -/
theorem C2_counterexample :
    TimeVAEDataset.getItem (TimeVAEDataset.mk ([0, 1, 2, 3, 4] : List ℤ) 2) (-1) =
      .ok [] ∧ (-1 : ℤ) < 0 := by
  exact ⟨rfl, by decide⟩

/-- C2 (amended): integer `get(index)` fails (with `IndexError`) exactly when
`index ≥ length()`; negative indices are not range-checked, so they succeed
and return the Python-slice result instead of failing. -/
theorem C2_getItem_fails_iff {α : Type} (ds : TimeVAEDataset α) (idx : ℤ) :
    (∃ e, ds.getItem idx = .error e) ↔ ds.length ≤ idx := by
  unfold TimeVAEDataset.getItem
  split
  · simp_all
  · simp_all

/-- C5: `__getitem__` is a pure read: it returns the receiver unchanged, and a
second call on the post-call object with the same index returns the identical
value and again leaves the object equal to the original. -/
theorem C5_getItem_stateless {α : Type} (ds : TimeVAEDataset α) (idx : ℤ) :
    (ds.getItemSt idx).2 = ds ∧
    ((ds.getItemSt idx).2.getItemSt idx).1 = (ds.getItemSt idx).1 ∧
    ((ds.getItemSt idx).2.getItemSt idx).2 = ds :=
  ⟨rfl, rfl, rfl⟩

/-- C8: for every `VAEDecoder` instance produced by the constructor (which
assigns only `params` and `decode`) and every input, `forward` fails with an
`AttributeError` on `decoder`, the first of the three unassigned attributes it
references. -/
theorem C8_forward_attributeError (d : VAEDecoder) (z : List ℝ) :
    d.forward z = .error (.attributeError "decoder") := rfl

/-- C3: when `rows ≥ window_size` and `0 ≤ index < length()`, `get(index)`
succeeds and returns exactly the contiguous slice of the table covering rows
`[index, index + window_size)`, a window of length `window_size`; `get(0)` and
`get(length()-1)` are instances. -/
theorem C3_getItem_in_range {α : Type} (df : List α) (w : Nat) (idx : ℤ)
    (_hw : w ≤ df.length) (h0 : 0 ≤ idx)
    (hlt : idx < (TimeVAEDataset.mk df w).length) :
    (TimeVAEDataset.mk df w).getItem idx = .ok ((df.drop idx.toNat).take w) ∧
    ((df.drop idx.toNat).take w).length = w := by
  simp only [TimeVAEDataset.length, TimeVAEDataset.dataframe_rows] at hlt
  constructor
  · unfold TimeVAEDataset.getItem
    rw [if_neg (by simp only [TimeVAEDataset.length, TimeVAEDataset.dataframe_rows]; omega)]
    simp only [TimeVAEDataset.moving_slicing, pySlice, pyNormIdx]
    rw [if_neg (by omega), if_neg (by omega)]
    rw [min_eq_left (by omega), min_eq_left (by omega)]
    have he : ((w : ℤ) + idx).toNat - idx.toNat = w := by omega
    rw [he]
  · simp only [List.length_take, List.length_drop]
    omega

/-- C3 witness: over the 3-row table `[0, 1, 2]` with `window_size = 2`,
`get(1)` returns rows `[1, 3)`, a window of length 2. -/
theorem C3_witness :
    TimeVAEDataset.getItem (TimeVAEDataset.mk ([0, 1, 2] : List ℤ) 2) 1 =
      .ok ((([0, 1, 2] : List ℤ).drop (1 : ℤ).toNat).take 2) ∧
    ((([0, 1, 2] : List ℤ).drop (1 : ℤ).toNat).take 2).length = 2 :=
  C3_getItem_in_range ([0, 1, 2] : List ℤ) 2 1 (by decide) (by decide) (by decide)

/-- C4 counterexample: on a 5-row table with `window_size = 2` (logical length
4), the slice `[0:-1]` has stop endpoint `-1` outside `[0, length())`, yet
slice access succeeds (returning `[]`) instead of failing: the code only
checks `start < 0 or stop >= length`. -/
theorem C4_counterexample :
    TimeVAEDataset.getItemSlice (TimeVAEDataset.mk ([0, 1, 2, 3, 4] : List ℤ) 2)
      ⟨0, -1, none⟩ = .ok [] ∧ (-1 : ℤ) < 0 :=
  ⟨rfl, by decide⟩

/-- C4 (amended): slice access fails with `IndexError` exactly when
`start < 0` or `stop ≥ length()` (so `start ≥ length` and negative `stop` are
not rejected); when the check passes and the step is omitted, it returns the
window at each index of `range(start, stop)`. -/
theorem C4_slice_semantics {α : Type} (ds : TimeVAEDataset α)
    (s : TimeVAEDataset.Slice) :
    ((∃ m, ds.getItemSlice s = .error (.indexError m)) ↔
      s.start < 0 ∨ ds.length ≤ s.stop) ∧
    (¬ (s.start < 0 ∨ ds.length ≤ s.stop) → s.step = none →
      ds.getItemSlice s = .ok ((pyRange s.start s.stop 1).map ds.moving_slicing)) := by
  constructor
  · unfold TimeVAEDataset.getItemSlice
    split
    · simp_all
    · dsimp only
      split
      · constructor
        · rintro ⟨m, hm⟩
          simp at hm
        · intro h
          simp_all
      · simp_all
  · intro h hstep
    unfold TimeVAEDataset.getItemSlice
    rw [if_neg h]
    simp [hstep]

/-- C4 witness: on the 5-row table with `window_size = 2`, the in-bounds slice
`[1:3]` returns the windows at indices 1 and 2. -/
theorem C4_witness :
    TimeVAEDataset.getItemSlice (TimeVAEDataset.mk ([0, 1, 2, 3, 4] : List ℤ) 2)
      ⟨1, 3, none⟩ =
      .ok ((pyRange 1 3 1).map
        (TimeVAEDataset.moving_slicing (TimeVAEDataset.mk ([0, 1, 2, 3, 4] : List ℤ) 2))) :=
  (C4_slice_semantics _ _).2 (by decide) rfl

/-- C6: dataframe validation raises `TypeError` exactly when the index is not
a `DatetimeIndex`; with a `DatetimeIndex`, validation returns normally (with
warnings at most) whatever the nulls or the index order — it never modifies
the dataframe, which it only reads. -/
theorem C6_validate_iff {α : Type} (df : PdFrame α) :
    ((∃ m, validateDataframe df = .error (.typeError m)) ↔
      df.indexKind ≠ .datetimeIndex) ∧
    (df.indexKind = .datetimeIndex → ∃ ws, validateDataframe df = .ok ws) := by
  unfold validateDataframe
  constructor
  · split
    · simp_all
    · simp_all
  · intro h
    rw [if_neg (by simp [h])]
    exact ⟨_, rfl⟩

/-- C6 witness: a dataframe with a `DatetimeIndex` whose index is unsorted and
whose single cell is null still validates without failure. -/
theorem C6_witness :
    ∃ ws, validateDataframe
      (PdFrame.mk PdIndexKind.datetimeIndex [2, 1] ([none] : List (Option ℤ))) =
      .ok ws :=
  (C6_validate_iff _).2 rfl

/-- `l[0:m]` for `0 ≤ m ≤ len(l)` is the first `m` elements. -/
theorem pySlice_take {α : Type} (l : List α) (m : ℤ) (h0 : 0 ≤ m)
    (hm : m ≤ (l.length : ℤ)) : pySlice l 0 m = l.take m.toNat := by
  simp only [pySlice, pyNormIdx]
  rw [if_neg (by omega), if_neg (by omega)]
  have h1 : min (0 : ℤ).toNat l.length = 0 := by omega
  have h2 : min m.toNat l.length = m.toNat := by omega
  rw [h1, h2]
  simp

/-- `l[m:len(l)]` for `0 ≤ m ≤ len(l)` drops the first `m` elements. -/
theorem pySlice_drop {α : Type} (l : List α) (m : ℤ) (h0 : 0 ≤ m)
    (hm : m ≤ (l.length : ℤ)) :
    pySlice l m (l.length : ℤ) = l.drop m.toNat := by
  simp only [pySlice, pyNormIdx]
  rw [if_neg (by omega), if_neg (by omega)]
  have h1 : min m.toNat l.length = m.toNat := by omega
  have h2 : min (l.length : ℤ).toNat l.length = l.length := by omega
  rw [h1, h2]
  exact List.take_of_length_le (by simp)

/-- C9 counterexample: a data module over a 1-row dataframe with
`test_fraction = 2` has a train/val part of 0 rows, not the claimed
`rows - floor(rows * test_fraction) = -1` rows: the claim does not hold for
every `test_fraction`. -/
theorem C9_counterexample :
    ((TimeVAEDataModule.train_val_dataframe
        ⟨2, [(0 : ℤ)], 2, 1 / 10, 32, 0⟩).length : ℤ) ≠
      (1 : ℤ) - ⌊(1 : ℚ) * 2⌋ := by
  norm_num [TimeVAEDataModule.train_val_dataframe, TimeVAEDataModule.df_train_val_length,
    TimeVAEDataModule.df_test_length, TimeVAEDataModule.df_length, pyInt,
    pySlice, pyNormIdx]

/-- C9 (amended): for `0 ≤ test_fraction ≤ 1` the split is an ordered
partition: with `k = floor(rows * test_fraction)` (here `int()` truncation
agrees with floor), `train_val_dataframe` is the first `rows - k` rows,
`test_dataframe` the remaining `k` rows, and their in-order concatenation is
the original dataframe. -/
theorem C9_split_partition {α : Type} (df : List α) (w bs nw : Nat) (tf vf : ℚ)
    (h0 : 0 ≤ tf) (h1 : tf ≤ 1) :
    TimeVAEDataModule.train_val_dataframe ⟨w, df, tf, vf, bs, nw⟩ =
      df.take ((df.length : ℤ) - ⌊(df.length : ℚ) * tf⌋).toNat ∧
    TimeVAEDataModule.test_dataframe ⟨w, df, tf, vf, bs, nw⟩ =
      df.drop ((df.length : ℤ) - ⌊(df.length : ℚ) * tf⌋).toNat ∧
    ((TimeVAEDataModule.train_val_dataframe ⟨w, df, tf, vf, bs, nw⟩).length : ℤ) =
      (df.length : ℤ) - ⌊(df.length : ℚ) * tf⌋ ∧
    ((TimeVAEDataModule.test_dataframe ⟨w, df, tf, vf, bs, nw⟩).length : ℤ) =
      ⌊(df.length : ℚ) * tf⌋ ∧
    TimeVAEDataModule.train_val_dataframe ⟨w, df, tf, vf, bs, nw⟩ ++
      TimeVAEDataModule.test_dataframe ⟨w, df, tf, vf, bs, nw⟩ = df := by
  have hnn : (0 : ℚ) ≤ (df.length : ℚ) * tf := mul_nonneg (Nat.cast_nonneg _) h0
  have hk0 : 0 ≤ ⌊(df.length : ℚ) * tf⌋ := Int.floor_nonneg.mpr hnn
  have hkn : ⌊(df.length : ℚ) * tf⌋ ≤ (df.length : ℤ) := by
    have hle : (df.length : ℚ) * tf ≤ (df.length : ℚ) := by
      nlinarith [Nat.cast_nonneg (α := ℚ) df.length]
    have := Int.floor_le_floor hle
    simpa using this
  have htest : TimeVAEDataModule.df_test_length ⟨w, df, tf, vf, bs, nw⟩ =
      ⌊(df.length : ℚ) * tf⌋ := by
    simp only [TimeVAEDataModule.df_test_length, TimeVAEDataModule.df_length, pyInt]
    rw [if_pos hnn]
  have htv : TimeVAEDataModule.df_train_val_length ⟨w, df, tf, vf, bs, nw⟩ =
      (df.length : ℤ) - ⌊(df.length : ℚ) * tf⌋ := by
    simp only [TimeVAEDataModule.df_train_val_length, TimeVAEDataModule.df_length, htest]
  have htake : TimeVAEDataModule.train_val_dataframe ⟨w, df, tf, vf, bs, nw⟩ =
      df.take ((df.length : ℤ) - ⌊(df.length : ℚ) * tf⌋).toNat := by
    simp only [TimeVAEDataModule.train_val_dataframe, htv]
    exact pySlice_take df _ (by omega) (by omega)
  have hdrop : TimeVAEDataModule.test_dataframe ⟨w, df, tf, vf, bs, nw⟩ =
      df.drop ((df.length : ℤ) - ⌊(df.length : ℚ) * tf⌋).toNat := by
    simp only [TimeVAEDataModule.test_dataframe, htv, TimeVAEDataModule.df_length]
    exact pySlice_drop df _ (by omega) (by omega)
  refine ⟨htake, hdrop, ?_, ?_, ?_⟩
  · rw [htake]
    simp only [List.length_take]
    omega
  · rw [hdrop]
    simp only [List.length_drop]
    omega
  · rw [htake, hdrop]
    exact List.take_append_drop _ _

/-- C9 witness: a 3-row dataframe with `test_fraction = 1/2` splits into the
first 2 rows and the last 1 row, whose concatenation restores the dataframe. -/
theorem C9_witness :
    TimeVAEDataModule.train_val_dataframe ⟨1, ([10, 20, 30] : List ℤ), 1 / 2, 0, 1, 0⟩ =
      ([10, 20, 30] : List ℤ).take
        (((([10, 20, 30] : List ℤ).length : ℤ) -
          ⌊(([10, 20, 30] : List ℤ).length : ℚ) * (1 / 2)⌋).toNat) ∧
    TimeVAEDataModule.test_dataframe ⟨1, ([10, 20, 30] : List ℤ), 1 / 2, 0, 1, 0⟩ =
      ([10, 20, 30] : List ℤ).drop
        (((([10, 20, 30] : List ℤ).length : ℤ) -
          ⌊(([10, 20, 30] : List ℤ).length : ℚ) * (1 / 2)⌋).toNat) ∧
    ((TimeVAEDataModule.train_val_dataframe
        ⟨1, ([10, 20, 30] : List ℤ), 1 / 2, 0, 1, 0⟩).length : ℤ) =
      ((([10, 20, 30] : List ℤ).length : ℤ) -
        ⌊(([10, 20, 30] : List ℤ).length : ℚ) * (1 / 2)⌋) ∧
    ((TimeVAEDataModule.test_dataframe
        ⟨1, ([10, 20, 30] : List ℤ), 1 / 2, 0, 1, 0⟩).length : ℤ) =
      ⌊(([10, 20, 30] : List ℤ).length : ℚ) * (1 / 2)⌋ ∧
    TimeVAEDataModule.train_val_dataframe ⟨1, ([10, 20, 30] : List ℤ), 1 / 2, 0, 1, 0⟩ ++
      TimeVAEDataModule.test_dataframe ⟨1, ([10, 20, 30] : List ℤ), 1 / 2, 0, 1, 0⟩ =
      ([10, 20, 30] : List ℤ) :=
  C9_split_partition ([10, 20, 30] : List ℤ) 1 1 0 (1 / 2) 0 (by norm_num) (by norm_num)

/-- C10: `time_delay_embed` over a dataframe with a `t` column plus one value
column, with `1 ≤ window_size ≤ rows`, yields `rows - window_size + 1` rows;
output row `i` is the value column restricted to input rows
`[i, i + window_size)`, so every output row has `window_size` columns. -/
theorem C10_embed_rows {α : Type} (df : List (ℝ × α)) (w : Nat)
    (h1 : 1 ≤ w) (h2 : w ≤ df.length) :
    time_delay_embed df w =
      (List.range (df.length - w + 1)).map
        (fun i => ((df.map Prod.snd).drop i).take w) ∧
    ∀ r ∈ time_delay_embed df w, r.length = w := by
  have hmain : time_delay_embed df w =
      (List.range (df.length - w + 1)).map
        (fun i => ((df.map Prod.snd).drop i).take w) := by
    apply List.ext_getElem
    · simp only [time_delay_embed, List.length_drop, List.length_map, List.length_range]
      omega
    · intro i hi1 hi2
      simp only [time_delay_embed, List.getElem_drop, List.getElem_map, List.getElem_range]
      have e1 : w - 1 + i + 1 - w = i := by omega
      have e2 : w - 1 + i + 1 - i = w := by omega
      simp only [rollingWindow, e1, e2]
  refine ⟨hmain, ?_⟩
  intro r hr
  rw [hmain] at hr
  simp only [List.mem_map, List.mem_range] at hr
  obtain ⟨i, hi, rfl⟩ := hr
  simp only [List.length_take, List.length_drop, List.length_map]
  omega

/-- C10 witness: embedding the 3-row series `[(0, 5), (1, 6), (2, 7)]` with
window size 2 yields the two rows `[5, 6]` and `[6, 7]`, each of 2 columns. -/
theorem C10_witness :
    time_delay_embed [((0 : ℝ), (5 : ℤ)), (1, 6), (2, 7)] 2 =
      (List.range (([((0 : ℝ), (5 : ℤ)), (1, 6), (2, 7)]).length - 2 + 1)).map
        (fun i =>
          ((([((0 : ℝ), (5 : ℤ)), (1, 6), (2, 7)]).map Prod.snd).drop i).take 2) ∧
    ∀ r ∈ time_delay_embed [((0 : ℝ), (5 : ℤ)), (1, 6), (2, 7)] 2, r.length = 2 :=
  C10_embed_rows [((0 : ℝ), (5 : ℤ)), (1, 6), (2, 7)] 2 (by decide) (by decide)

/-- C7 (spec-modelled): for positive parameters the pendulum generator
succeeds deterministically with a table of exactly
`num_periods * num_samples_per_period` samples whose times are strictly
increasing, whose first sample is `(0, initial_angle)`, and whose angles
follow `theta(t) = initial_angle * cos(2π t / period) * exp(-beta * t)`;
any non-positive parameter yields an `InvalidParameter` error. -/
theorem C7_pendulum_contract :
    (∀ (L A b : ℝ) (np ns : ℤ), 0 < L → 0 < np → 0 < ns → 0 < A → 0 < b →
      pendulum L np ns A b = .ok (pendulumTable L np ns A b) ∧
      (pendulumTable L np ns A b).length = (np * ns).toNat ∧
      (pendulumTable L np ns A b).Pairwise (fun p q => p.1 < q.1) ∧
      (pendulumTable L np ns A b).head? = some (0, A) ∧
      ∀ p ∈ pendulumTable L np ns A b,
        p.2 = pendulumTheta A b (pendulumPeriod L) p.1) ∧
    (∀ (L A b : ℝ) (np ns : ℤ),
      (L ≤ 0 ∨ np ≤ 0 ∨ ns ≤ 0 ∨ A ≤ 0 ∨ b ≤ 0) →
      pendulum L np ns A b = .error .invalidParameter) := by
  constructor
  · intro L A b np ns hL hnp hns hA hb
    have hperiod : 0 < pendulumPeriod L := by
      unfold pendulumPeriod
      have hg : (0 : ℝ) < gGravity := by unfold gGravity; norm_num
      have h2 : 0 < Real.sqrt (L / gGravity) := Real.sqrt_pos.mpr (div_pos hL hg)
      positivity
    have hdt : 0 < pendulumDt L ns := by
      apply div_pos hperiod
      exact_mod_cast hns
    refine ⟨?_, ?_, ?_, ?_, ?_⟩
    · unfold pendulum
      rw [if_neg (by push_neg; exact ⟨hL, hnp, hns, hA, hb⟩)]
    · simp only [pendulumTable, List.length_map, List.length_range]
    · exact List.Pairwise.map _
        (fun i j hij =>
          mul_lt_mul_of_pos_left (show (i : ℝ) < j by exact_mod_cast hij) hdt)
        (List.pairwise_lt_range _)
    · have hN : (np * ns).toNat ≠ 0 := by
        have := mul_pos hnp hns
        omega
      obtain ⟨N, hNe⟩ : ∃ m, (np * ns).toNat = m + 1 :=
        ⟨(np * ns).toNat - 1, by omega⟩
      unfold pendulumTable
      rw [hNe, List.range_succ_eq_map, List.map_cons, List.head?_cons]
      have ht0 : pendulumDt L ns * ((0 : ℕ) : ℝ) = 0 := by norm_num
      rw [ht0]
      have hth : pendulumTheta A b (pendulumPeriod L) 0 = A := by
        unfold pendulumTheta
        simp
      rw [hth]
    · intro p hp
      unfold pendulumTable at hp
      obtain ⟨i, _, rfl⟩ := List.mem_map.mp hp
      rfl
  · intro L A b np ns h
    unfold pendulum
    rw [if_pos h]

/-- C7 witness: with all parameters equal to 1 the generator succeeds with a
single strictly-ordered sample starting at `(0, 1)`; with `length = 0` it
fails with `InvalidParameter`. -/
theorem C7_witness :
    (pendulum 1 1 1 1 1 = .ok (pendulumTable 1 1 1 1 1) ∧
     (pendulumTable 1 1 1 1 1).length = ((1 : ℤ) * 1).toNat ∧
     (pendulumTable 1 1 1 1 1).Pairwise (fun p q => p.1 < q.1) ∧
     (pendulumTable 1 1 1 1 1).head? = some (0, 1) ∧
     ∀ p ∈ pendulumTable 1 1 1 1 1,
       p.2 = pendulumTheta 1 1 (pendulumPeriod 1) p.1) ∧
    pendulum 0 1 1 1 1 = .error .invalidParameter :=
  ⟨C7_pendulum_contract.1 1 1 1 1 1 (by norm_num) (by norm_num) (by norm_num)
      (by norm_num) (by norm_num),
   C7_pendulum_contract.2 0 1 1 1 1 (Or.inl le_rfl)⟩

end CPE
